import Mathlib

/-!
Verification of the dj-stripe admin/signals excerpt.

The Django ORM querysets are embedded as Lean lists of records; `exclude(f=None)`
keeps the rows whose field `f` is non-null and `filter(f=None)` keeps the rows
whose field `f` is null.  A `SimpleListFilter`'s selected parameter value
(`self.value()`) is an `Option String`, `none` when no value is selected.  A
Python method that can fall through without a `return` statement is embedded
with result type `Option _`, returning `none` on the fall-through path.
-/

namespace DjStripe

/-- Embeds the `Subscription` model rows as far as this excerpt reads them:
a provider-assigned identifier and a status string. -/
structure Subscription where
  stripe_id : String
  status : String
deriving DecidableEq

/-- Embeds the `Customer` model rows: `default_source` is a nullable reference
(held here as the referenced source identifier) and `subscriptions` is the
reverse foreign-key set of the customer's subscription rows. -/
structure Customer where
  stripe_id : String
  default_source : Option String
  subscriptions : List Subscription
deriving DecidableEq

/-- Embeds the `Charge` model rows as far as this excerpt reads them. -/
structure Charge where
  stripe_id : String
deriving DecidableEq

/-- Embeds the `Invoice` model rows: `customer` is the invoice's foreign-key
target, inlined as a record since the excerpt only follows the reference. -/
structure Invoice where
  stripe_id : String
  customer : Customer
deriving DecidableEq

/-- Embeds a subscriber record: `djstripe_customers` is the related manager's
row set of customers attached to the subscriber. -/
structure Subscriber where
  email : String
  djstripe_customers : List Customer
deriving DecidableEq

/-! ### `admin.py`: custom list filters -/

/-- `CustomerHasSourceListFilter.lookups`: the two selectable values with
their labels (`admin.py` lines 13-17). -/
def CustomerHasSourceListFilter.lookups : List (String × String) :=
  [("yes", "Has Source"), ("no", "Does Not Have Source")]

/-- `CustomerHasSourceListFilter.queryset` (`admin.py` lines 19-23):
`exclude(default_source=None)` on "yes", `filter(default_source=None)` on
"no", and the Python fall-through (no `return` hit, i.e. `None`) otherwise. -/
def CustomerHasSourceListFilter.queryset
    (value : Option String) (qs : List Customer) : Option (List Customer) :=
  if value = some "yes" then
    some (qs.filter (fun c => c.default_source.isSome))
  else if value = some "no" then
    some (qs.filter (fun c => c.default_source.isNone))
  else
    none

/-- `InvoiceCustomerHasSourceListFilter.lookups` (`admin.py` lines 30-34). -/
def InvoiceCustomerHasSourceListFilter.lookups : List (String × String) :=
  [("yes", "Has Source"), ("no", "Does Not Have Source")]

/-- `InvoiceCustomerHasSourceListFilter.queryset` (`admin.py` lines 36-40):
the same tri-state dispatch through the invoice's `customer__default_source`
join field. -/
def InvoiceCustomerHasSourceListFilter.queryset
    (value : Option String) (qs : List Invoice) : Option (List Invoice) :=
  if value = some "yes" then
    some (qs.filter (fun inv => inv.customer.default_source.isSome))
  else if value = some "no" then
    some (qs.filter (fun inv => inv.customer.default_source.isNone))
  else
    none

/-- Python's `str.title()` over a character list: an alphabetic character is
uppercased when the previous character is not alphabetic and lowercased
otherwise (sufficient for the ASCII status strings this filter titles). -/
def pyTitleAux : Bool → List Char → List Char
  | _, [] => []
  | prevAlpha, c :: cs =>
    (if c.isAlpha then (if prevAlpha then c.toLower else c.toUpper) else c)
      :: pyTitleAux c.isAlpha cs

/-- Python's `x.replace("_", " ").title()` used to label a status value. -/
def statusLabel (x : String) : String :=
  ⟨pyTitleAux false (x.data.map (fun c => if c = '_' then ' ' else c))⟩

/-- `CustomerSubscriptionStatusListFilter.lookups` (`admin.py` lines 47-56):
one `(value, label)` pair per distinct status present in the subscription
table (`values_list("status", flat=True).distinct()`), then the appended
`["none", "No Subscription"]` entry.  The subscription table contents are the
`allSubs` parameter. -/
def CustomerSubscriptionStatusListFilter.lookups
    (allSubs : List Subscription) : List (String × String) :=
  ((allSubs.map Subscription.status).eraseDups).map (fun x => (x, statusLabel x))
    ++ [("none", "No Subscription")]

/-- `CustomerSubscriptionStatusListFilter.queryset` (`admin.py` lines 58-62):
`queryset.all()` when no value is selected; otherwise
`filter(subscriptions__status=value).distinct()` — the reverse foreign-key
join yields one row per matching (customer, subscription) pair, and
`distinct()` collapses the duplicates. -/
def CustomerSubscriptionStatusListFilter.queryset
    (value : Option String) (qs : List Customer) : List Customer :=
  match value with
  | none => qs
  | some v =>
    (qs.flatMap (fun c =>
      (c.subscriptions.filter (fun s => s.status == v)).map (fun _ => c))).eraseDups

/-- The admin changelist applies a filter's `queryset` return value only when
it is not `None` (the framework's fall-through handling): a `None` return
leaves the record set unchanged. -/
def effectiveQueryset {α : Type} (r : Option (List α)) (qs : List α) : List α :=
  r.getD qs

/-- `customer_has_source` displayed column (`admin.py` lines 213-215):
`obj.customer.default_source is not None`. -/
def customer_has_source (obj : Invoice) : Bool :=
  obj.customer.default_source.isSome

/-- `subscription_status` displayed column (`admin.py` lines 148-157): the
customer's current subscription status, or the empty string when the
customer has no current subscription.  The `customer.subscription` property
is the optional current subscription. -/
def subscription_status (subscription : Option Subscription) : String :=
  match subscription with
  | some s => s.status
  | none => ""

/-! ### `signals.py`: webhook signal registry -/

/-- Embeds `django.dispatch.Signal`: each `Signal(...)` construction allocates
a fresh signal object, identified here by its allocation index `sid`
(module-evaluation order), carrying its `providing_args` declaration. -/
structure Signal where
  sid : Nat
  providing_args : List String
deriving DecidableEq

/-- `webhook_processing_error` (`signals.py` line 11): the module-level
generic error signal, the first signal the module allocates. -/
def webhook_processing_error : Signal :=
  { sid := 0, providing_args := ["data", "exception"] }

/-- The fixed enumeration of event-type strings in the comprehension of
`WEBHOOK_SIGNALS` (`signals.py` lines 18-144), in source order. -/
def webhook_hooks : List String :=
  [
    "account.updated",
    "account.application.authorized",
    "account.application.deauthorized",
    "account.external_account.created",
    "account.external_account.deleted",
    "account.external_account.updated",
    "application_fee.created",
    "application_fee.refunded",
    "application_fee.refund.updated",
    "balance.available",
    "charge.captured",
    "charge.expired",
    "charge.failed",
    "charge.pending",
    "charge.refunded",
    "charge.succeeded",
    "charge.updated",
    "charge.dispute.closed",
    "charge.dispute.created",
    "charge.dispute.funds_reinstated",
    "charge.dispute.funds_withdrawn",
    "charge.dispute.updated",
    "charge.refund.updated",
    "checkout_beta.session_succeeded",
    "coupon.created",
    "coupon.deleted",
    "coupon.updated",
    "customer.created",
    "customer.deleted",
    "customer.updated",
    "customer.discount.created",
    "customer.discount.deleted",
    "customer.discount.updated",
    "customer.source.created",
    "customer.source.deleted",
    "customer.source.expiring",
    "customer.source.updated",
    "customer.subscription.created",
    "customer.subscription.deleted",
    "customer.subscription.trial_will_end",
    "customer.subscription.updated",
    "file.created",
    "invoice.created",
    "invoice.deleted",
    "invoice.finalized",
    "invoice.marked_uncollectible",
    "invoice.payment_failed",
    "invoice.payment_succeeded",
    "invoice.sent",
    "invoice.upcoming",
    "invoice.updated",
    "invoice.voided",
    "invoiceitem.created",
    "invoiceitem.deleted",
    "invoiceitem.updated",
    "issuing_authorization.created",
    "issuing_authorization.request",
    "issuing_authorization.updated",
    "issuing_card.created",
    "issuing_card.updated",
    "issuing_cardholder.created",
    "issuing_cardholder.updated",
    "issuing_dispute.created",
    "issuing_dispute.updated",
    "issuing_settlement.created",
    "issuing_settlement.updated",
    "issuing_transaction.created",
    "issuing_transaction.updated",
    "order.created",
    "order.payment_failed",
    "order.payment_succeeded",
    "order.updated",
    "order_return.created",
    "payment_intent.amount_capturable_updated",
    "payment_intent.created",
    "payment_intent.payment_failed",
    "payment_intent.requires_capture",
    "payment_intent.succeeded",
    "payout.canceled",
    "payout.created",
    "payout.failed",
    "payout.paid",
    "payout.updated",
    "plan.created",
    "plan.deleted",
    "plan.updated",
    "product.created",
    "product.deleted",
    "product.updated",
    "recipient.created",
    "recipient.deleted",
    "recipient.updated",
    "reporting.report_run.failed",
    "reporting.report_run.succeeded",
    "reporting.report_type.updated",
    "review.closed",
    "review.opened",
    "sigma.scheduled_query_run.created",
    "sku.created",
    "sku.deleted",
    "sku.updated",
    "source.canceled",
    "source.chargeable",
    "source.failed",
    "source.mandate_notification",
    "source.refund_attributes_required",
    "source.transaction.created",
    "source.transaction.updated",
    "topup.canceled",
    "topup.created",
    "topup.failed",
    "topup.reversed",
    "topup.succeeded",
    "transfer.created",
    "transfer.reversed",
    "transfer.updated",
    "issuer_fraud_record.created",
    "subscription_schedule.canceled",
    "subscription_schedule.completed",
    "subscription_schedule.created",
    "subscription_schedule.released",
    "subscription_schedule.updated",
    "ping"
  ]

/-- One step of Python `dict(pairs)` construction: inserting `(k, v)` keeps
insertion order and overwrites the value when the key is already present. -/
def dictInsert (l : List (String × Signal)) (kv : String × Signal) :
    List (String × Signal) :=
  if l.any (fun p => p.1 == kv.1) then
    l.map (fun p => if p.1 == kv.1 then (p.1, kv.2) else p)
  else
    l ++ [kv]

/-- `WEBHOOK_SIGNALS` (`signals.py` lines 15-146): the Python dict built from
the comprehension pairing each hook with a freshly allocated
`Signal(providing_args=["event"])`.  Signal allocation indices continue after
`webhook_processing_error`, so hook number `i` (0-based) receives the signal
with `sid = i + 1`. -/
def WEBHOOK_SIGNALS : List (String × Signal) :=
  (webhook_hooks.enum.map
    (fun p => (p.2, Signal.mk (p.1 + 1) ["event"]))).foldl dictInsert []

/-- Dict lookup in the signal table: the value at the first (hence, with the
keys unique, the only) entry whose key equals the event-type string. -/
def lookupSignal (typ : String) : Option Signal :=
  (WEBHOOK_SIGNALS.find? (fun p => p.1 == typ)).map Prod.snd

/-! ### Model-method call traces

The bulk actions and the deletion hook call model methods (`send_receipt`,
`cancel`, `purge`) defined outside this excerpt; the embedding records each
invocation as an event in a trace, in loop order. -/

/-- One model-method invocation made by the admin actions or the deletion
hook, tagged with the record it was invoked on. -/
inductive ModelCall where
  | purge (customer : Customer)
  | send_receipt (charge : Charge)
  | cancel (subscription : Subscription)
deriving DecidableEq

/-- The loop body of `send_charge_receipt` (`admin.py` lines 65-71):
`for charge in queryset: charge.send_receipt()`, traced call by call. -/
def send_charge_receipt : List Charge → List ModelCall
  | [] => []
  | charge :: rest => ModelCall.send_receipt charge :: send_charge_receipt rest

/-- The loop body of `cancel_subscription` (`admin.py` lines 161-165):
`for subscription in queryset: subscription.cancel()`, traced call by call. -/
def cancel_subscription : List Subscription → List ModelCall
  | [] => []
  | subscription :: rest => ModelCall.cancel subscription :: cancel_subscription rest

/-- The loop of `on_delete_subscriber_purge_customer` (`signals.py` lines
149-153): `for customer in instance.djstripe_customers.all(): customer.purge()`,
traced call by call. -/
def purgeLoop : List Customer → List ModelCall
  | [] => []
  | customer :: rest => ModelCall.purge customer :: purgeLoop rest

/-- `on_delete_subscriber_purge_customer` (`signals.py` lines 149-153): the
`pre_delete` receiver for the subscriber model purges every customer of the
deleted subscriber's `djstripe_customers` related set. -/
def on_delete_subscriber_purge_customer (inst : Subscriber) : List ModelCall :=
  purgeLoop inst.djstripe_customers

/-! ### Concrete records for the closed evaluations -/

/-- A subscription row with status `"active"`. -/
def subActive : Subscription := { stripe_id := "sub_1", status := "active" }

/-- A subscription row with status `"past_due"`. -/
def subPastDue : Subscription := { stripe_id := "sub_2", status := "past_due" }

/-- A customer row with a non-null `default_source` and one active
subscription. -/
def custWithSource : Customer :=
  { stripe_id := "cus_1", default_source := some "card_1", subscriptions := [subActive] }

/-- A customer row with a null `default_source` and no subscription rows. -/
def custNoSource : Customer :=
  { stripe_id := "cus_2", default_source := none, subscriptions := [] }

/-- An invoice row whose customer has a source. -/
def invWithSource : Invoice := { stripe_id := "in_1", customer := custWithSource }

/-- An invoice row whose customer has no source. -/
def invNoSource : Invoice := { stripe_id := "in_2", customer := custNoSource }

/-- A subscriber record with two distinct attached customers. -/
def demoSubscriber : Subscriber :=
  { email := "subscriber@example.test", djstripe_customers := [custWithSource, custNoSource] }

/-! ### Helper lemmas -/

/-- Unrolling the purge loop: it emits one `purge` call per customer, in
order. -/
theorem purgeLoop_eq_map (l : List Customer) : purgeLoop l = l.map ModelCall.purge := by
  induction l with
  | nil => rfl
  | cons a t ih => simp [purgeLoop, ih]

/-- Distinct customers give distinct `purge` trace events. -/
theorem purge_injective : Function.Injective ModelCall.purge := by
  intro a b h
  injection h

/-- Counting across a filter and its pointwise-complement filter recovers the
count in the whole list. -/
theorem count_filter_compl {α : Type} [DecidableEq α] (p q : α → Bool)
    (hpq : ∀ x, q x = !p x) (l : List α) (a : α) :
    (l.filter p).count a + (l.filter q).count a = l.count a := by
  induction l with
  | nil => simp
  | cons b t ih =>
    by_cases hb : p b = true <;>
      simp [List.filter_cons, hb, hpq b, List.count_cons] <;> omega

/-- `Option.isNone` is the boolean complement of `Option.isSome` on the
nullable source field. -/
theorem isNone_eq_not_isSome_ds (o : Option String) : o.isNone = !o.isSome := by
  cases o <;> rfl

/-- An association-list search misses every key absent from the key column. -/
theorem find_entry_eq_none {l : List (String × Signal)} {s : String}
    (h : s ∉ l.map Prod.fst) : l.find? (fun p => p.1 == s) = none := by
  induction l with
  | nil => rfl
  | cons p t ih =>
    simp only [List.map_cons, List.mem_cons, not_or] at h
    have hp : (p.1 == s) = false := by
      simp only [beq_eq_false_iff_ne, ne_eq]
      exact fun e => h.1 e.symm
    simp [List.find?, hp, ih h.2]

set_option maxRecDepth 10000 in
/-- The key column of `WEBHOOK_SIGNALS` is exactly the hook enumeration, in
order: the dict construction never met a duplicate key. -/
theorem WEBHOOK_SIGNALS_keys : WEBHOOK_SIGNALS.map Prod.fst = webhook_hooks := by
  decide

/-! ### The claims -/

/-- Claim C1, counterexample: with no selected value,
`CustomerHasSourceListFilter.queryset` does not return the unmodified record
set — it returns the Python `None` (here `none`), falling through both
branches. -/
theorem C1_counterexample :
    CustomerHasSourceListFilter.queryset none [custWithSource] = none ∧
    CustomerHasSourceListFilter.queryset none [custWithSource] ≠ some [custWithSource] := by
  decide

/-- Claim C1, amended: with no selected value,
`CustomerSubscriptionStatusListFilter.queryset` returns the unmodified record
set, while the two has-source filters return no replacement queryset
(`none`); the admin framework then leaves the record set unchanged, so the
effective record set is unmodified for all three filters. -/
theorem C1_amended (qsC : List Customer) (qsI : List Invoice) :
    CustomerHasSourceListFilter.queryset none qsC = none ∧
    InvoiceCustomerHasSourceListFilter.queryset none qsI = none ∧
    CustomerSubscriptionStatusListFilter.queryset none qsC = qsC ∧
    effectiveQueryset (CustomerHasSourceListFilter.queryset none qsC) qsC = qsC ∧
    effectiveQueryset (InvoiceCustomerHasSourceListFilter.queryset none qsI) qsI = qsI :=
  ⟨rfl, rfl, rfl, rfl, rfl⟩

/-- Claim C2: on any customer record set, selecting `has_source=yes` retains
a record exactly when it is in the set with a non-null `default_source`, and
selecting `has_source=no` retains a record exactly when it is in the set with
a null `default_source`. -/
theorem C2_has_source_filter (qs : List Customer) (c : Customer) :
    (c ∈ effectiveQueryset (CustomerHasSourceListFilter.queryset (some "yes") qs) qs ↔
      c ∈ qs ∧ c.default_source ≠ none) ∧
    (c ∈ effectiveQueryset (CustomerHasSourceListFilter.queryset (some "no") qs) qs ↔
      c ∈ qs ∧ c.default_source = none) := by
  constructor <;>
    simp [CustomerHasSourceListFilter.queryset, effectiveQueryset,
      List.mem_filter, Option.isSome_iff_ne_none, Option.isNone_iff_eq_none]

/-- Claim C3: the subscriber-deletion hook purges each attached customer
exactly as often as it occurs in the related set — with the related rows
distinct, exactly once for every attached customer and never for any other
customer. -/
theorem C3_purge_each_once (inst : Subscriber) (c : Customer)
    (hnd : inst.djstripe_customers.Nodup) :
    (on_delete_subscriber_purge_customer inst).count (ModelCall.purge c)
      = inst.djstripe_customers.count c ∧
    inst.djstripe_customers.count c
      = (if c ∈ inst.djstripe_customers then 1 else 0) := by
  constructor
  · rw [on_delete_subscriber_purge_customer, purgeLoop_eq_map]
    exact List.count_map_of_injective _ _ purge_injective c
  · by_cases h : c ∈ inst.djstripe_customers
    · simp [h, List.count_eq_one_of_mem hnd h]
    · simp [h, List.count_eq_zero_of_not_mem h]

/-- Claim C3, witness: deleting the demo subscriber purges its first attached
customer exactly once. -/
theorem C3_witness :
    demoSubscriber.djstripe_customers.Nodup ∧
    ((on_delete_subscriber_purge_customer demoSubscriber).count (ModelCall.purge custWithSource)
        = demoSubscriber.djstripe_customers.count custWithSource ∧
      demoSubscriber.djstripe_customers.count custWithSource
        = (if custWithSource ∈ demoSubscriber.djstripe_customers then 1 else 0)) :=
  ⟨by decide, C3_purge_each_once demoSubscriber custWithSource (by decide)⟩

set_option maxRecDepth 10000 in
set_option maxHeartbeats 4000000 in
/-- Claim C4: the signal registry has exactly the enumerated event-type
strings as keys, each exactly once; the signal objects of distinct entries
are distinct; and the generic `webhook_processing_error` signal is not one of
the table values. -/
theorem C4_registry_wellformed :
    WEBHOOK_SIGNALS.map Prod.fst = webhook_hooks ∧
    webhook_hooks.Nodup ∧
    (WEBHOOK_SIGNALS.map Prod.snd).Nodup ∧
    webhook_processing_error ∉ WEBHOOK_SIGNALS.map Prod.snd :=
  ⟨WEBHOOK_SIGNALS_keys, by decide, by decide, by decide⟩

set_option maxRecDepth 10000 in
/-- Claim C5, counterexample: `WEBHOOK_SIGNALS` has exactly 123 keys, which
is not approximately 140 (it is not even within ten of it). -/
theorem C5_counterexample :
    WEBHOOK_SIGNALS.length = 123 ∧ ¬(130 ≤ WEBHOOK_SIGNALS.length) := by
  decide

set_option maxRecDepth 10000 in
/-- Claim C5, amended: the registry is a static enumeration of exactly 123
webhook event names mapped to signal objects. -/
theorem C5_amended_count :
    WEBHOOK_SIGNALS.length = 123 ∧ webhook_hooks.length = 123 := by
  decide

/-- Claim C6: looking up any string outside the fixed hook enumeration in the
signal table yields no signal. -/
theorem C6_unknown_event_lookup (s : String) (h : s ∉ webhook_hooks) :
    lookupSignal s = none := by
  have hk : s ∉ WEBHOOK_SIGNALS.map Prod.fst := WEBHOOK_SIGNALS_keys ▸ h
  rw [lookupSignal, find_entry_eq_none hk, Option.map_none']

set_option maxRecDepth 10000 in
/-- Claim C6, witness: the string `"charge.unknown_event"` is not an
enumerated hook and its lookup yields no signal. -/
theorem C6_witness :
    "charge.unknown_event" ∉ webhook_hooks ∧
    lookupSignal "charge.unknown_event" = none :=
  ⟨by decide, C6_unknown_event_lookup "charge.unknown_event" (by decide)⟩

/-- Claim C7: the status filter enumerates the value `"none"` labelled
`"No Subscription"`, yet selecting it filters on the literal status string
`"none"`: a customer with no subscription rows is not returned (the result is
empty), while an ordinary status value does select the matching customers.
This documents the divergence between the advertised lookup and the queryset
implementation. -/
theorem C7_none_value_misses_no_subscription_customers :
    ("none", "No Subscription") ∈
      CustomerSubscriptionStatusListFilter.lookups [subActive, subPastDue] ∧
    custNoSource.subscriptions = [] ∧
    CustomerSubscriptionStatusListFilter.queryset (some "none")
      [custWithSource, custNoSource] = [] ∧
    CustomerSubscriptionStatusListFilter.queryset (some "active")
      [custWithSource, custNoSource] = [custWithSource] := by
  decide

/-- Claim C8: the bulk actions are exactly one model-method call per selected
record, in iteration order — `send_receipt` on every selected charge and
`cancel` on every selected subscription, and nothing else. -/
theorem C8_bulk_actions (qsCharges : List Charge) (qsSubs : List Subscription) :
    send_charge_receipt qsCharges = qsCharges.map ModelCall.send_receipt ∧
    cancel_subscription qsSubs = qsSubs.map ModelCall.cancel := by
  constructor
  · induction qsCharges with
    | nil => rfl
    | cons a t ih => simp [send_charge_receipt, ih]
  · induction qsSubs with
    | nil => rfl
    | cons a t ih => simp [cancel_subscription, ih]

/-- Claim C9: the "yes" and "no" branches of the two has-source filters
partition the record set — the two branch counts of any record sum to its
count in the set, membership in the set is membership in exactly one branch,
and no record is in both branches; for the customer filter and the invoice
filter alike. -/
theorem C9_partition (qsC : List Customer) (qsI : List Invoice)
    (c : Customer) (inv : Invoice) :
    ((effectiveQueryset (CustomerHasSourceListFilter.queryset (some "yes") qsC) qsC).count c
        + (effectiveQueryset (CustomerHasSourceListFilter.queryset (some "no") qsC) qsC).count c
        = qsC.count c) ∧
    (c ∈ qsC ↔
      (c ∈ effectiveQueryset (CustomerHasSourceListFilter.queryset (some "yes") qsC) qsC ∨
        c ∈ effectiveQueryset (CustomerHasSourceListFilter.queryset (some "no") qsC) qsC)) ∧
    ¬(c ∈ effectiveQueryset (CustomerHasSourceListFilter.queryset (some "yes") qsC) qsC ∧
        c ∈ effectiveQueryset (CustomerHasSourceListFilter.queryset (some "no") qsC) qsC) ∧
    ((effectiveQueryset (InvoiceCustomerHasSourceListFilter.queryset (some "yes") qsI) qsI).count inv
        + (effectiveQueryset (InvoiceCustomerHasSourceListFilter.queryset (some "no") qsI) qsI).count inv
        = qsI.count inv) ∧
    (inv ∈ qsI ↔
      (inv ∈ effectiveQueryset (InvoiceCustomerHasSourceListFilter.queryset (some "yes") qsI) qsI ∨
        inv ∈ effectiveQueryset (InvoiceCustomerHasSourceListFilter.queryset (some "no") qsI) qsI)) ∧
    ¬(inv ∈ effectiveQueryset (InvoiceCustomerHasSourceListFilter.queryset (some "yes") qsI) qsI ∧
        inv ∈ effectiveQueryset (InvoiceCustomerHasSourceListFilter.queryset (some "no") qsI) qsI) := by
  refine ⟨?_, ?_, ?_, ?_, ?_, ?_⟩
  · simpa [CustomerHasSourceListFilter.queryset, effectiveQueryset] using
      count_filter_compl (fun x => x.default_source.isSome) (fun x => x.default_source.isNone)
        (fun x => isNone_eq_not_isSome_ds x.default_source) qsC c
  · rcases hd : c.default_source with _ | s <;>
      simp [CustomerHasSourceListFilter.queryset, effectiveQueryset, List.mem_filter, hd]
  · rcases hd : c.default_source with _ | s <;>
      simp [CustomerHasSourceListFilter.queryset, effectiveQueryset, List.mem_filter, hd]
  · simpa [InvoiceCustomerHasSourceListFilter.queryset, effectiveQueryset] using
      count_filter_compl (fun x => x.customer.default_source.isSome)
        (fun x => x.customer.default_source.isNone)
        (fun x => isNone_eq_not_isSome_ds x.customer.default_source) qsI inv
  · rcases hd : inv.customer.default_source with _ | s <;>
      simp [InvoiceCustomerHasSourceListFilter.queryset, effectiveQueryset, List.mem_filter, hd]
  · rcases hd : inv.customer.default_source with _ | s <;>
      simp [InvoiceCustomerHasSourceListFilter.queryset, effectiveQueryset, List.mem_filter, hd]

/-- Claim C10: for an invoice in the record set, the displayed
`customer_has_source` column is `true` exactly when the invoice filter
retains it under "yes", and `false` exactly when the filter retains it under
"no". -/
theorem C10_column_filter_agree (qs : List Invoice) (inv : Invoice) (h : inv ∈ qs) :
    (customer_has_source inv = true ↔
      inv ∈ effectiveQueryset (InvoiceCustomerHasSourceListFilter.queryset (some "yes") qs) qs) ∧
    (customer_has_source inv = false ↔
      inv ∈ effectiveQueryset (InvoiceCustomerHasSourceListFilter.queryset (some "no") qs) qs) := by
  rcases hd : inv.customer.default_source with _ | s <;>
    simp [customer_has_source, InvoiceCustomerHasSourceListFilter.queryset,
      effectiveQueryset, List.mem_filter, h, hd]

/-- Claim C10, witness: the agreement instantiated on a two-invoice set. -/
theorem C10_witness :
    invWithSource ∈ [invWithSource, invNoSource] ∧
    ((customer_has_source invWithSource = true ↔
      invWithSource ∈ effectiveQueryset
        (InvoiceCustomerHasSourceListFilter.queryset (some "yes") [invWithSource, invNoSource])
        [invWithSource, invNoSource]) ∧
    (customer_has_source invWithSource = false ↔
      invWithSource ∈ effectiveQueryset
        (InvoiceCustomerHasSourceListFilter.queryset (some "no") [invWithSource, invNoSource])
        [invWithSource, invNoSource])) :=
  ⟨by decide, C10_column_filter_agree [invWithSource, invNoSource] invWithSource (by decide)⟩

end DjStripe
